import Mathlib

/-!
Verification of the explorer-view interaction core (View dispatcher, entry
activation wrapper, shared view context) of the spacedrive interface.

The shallow embedding below translates the TypeScript source into executable
Lean definitions:
- `ViewItem.onDoubleClick` becomes `onDoubleClick`, a pure function from the
  ambient environment (platform capability, config, rename state, library) and
  the activated item to the ordered list of issued effects;
- the `useKey Space` quick-view handler becomes `spaceKeyHandler`;
- the dispatcher's context construction becomes `buildViewContext`;
- the dispatcher's render branching (items null / non-empty / empty-state
  resolution) becomes `renderExplorerView`;
- `useExplorerViewContext` becomes an `Except`-valued reader.
-/

/-- A file-path record, as consumed by the open branch (`filePath.id`) and the
directory branch (`location_id`). -/
structure FilePath where
  id : Nat
  location_id : Nat
deriving DecidableEq, Repr

/-- `Path`-variant payload of an `ExplorerItem`: fields read by
`ViewItem.onDoubleClick` (`is_dir`, `materialized_path`, `name`,
`location_id`, `object_id`) plus the stable `id` used by the quick-view
handler and file-path resolution. `object_id` is `number | null` in the
source, hence `Option Nat`. -/
structure PathItem where
  id : Nat
  is_dir : Bool
  materialized_path : String
  name : String
  location_id : Nat
  object_id : Option Nat
deriving DecidableEq, Repr

/-- `Object`-variant payload: stable id plus attached file-path records. -/
structure ObjectItem where
  id : Nat
  file_paths : List FilePath
deriving DecidableEq, Repr

/-- `ExplorerItem`: tagged variant over item kinds (`data.type` in the
source). -/
inductive ExplorerItem
  | Path (item : PathItem)
  | Object (item : ObjectItem)
deriving DecidableEq, Repr

/-- `isPath(data)` from `@sd/client`: true iff `data.type === 'Path'`. -/
def isPath : ExplorerItem → Bool
  | ExplorerItem.Path _ => true
  | ExplorerItem.Object _ => false

/-- Whether the item is a directory entry: `isPath(data) && data.item.is_dir`,
the condition of the first branch of `onDoubleClick`. -/
def isDirItem : ExplorerItem → Bool
  | ExplorerItem.Path p => p.is_dir
  | ExplorerItem.Object _ => false

/-- `item.item.id`, the stable identity used by the quick-view lookup. -/
def itemId : ExplorerItem → Nat
  | ExplorerItem.Path p => p.id
  | ExplorerItem.Object o => o.id

/-- Modelled from the spec: `getItemFilePath` (imported from `../util`, not in
the shown sources) resolves "a resolvable underlying file-path record" for an
item. For a `Path` entry the item itself is the record (it carries `id` and
`location_id`); for an `Object` entry, the first attached file-path record, if
any. -/
def getItemFilePath : ExplorerItem → Option FilePath
  | ExplorerItem.Path p => some { id := p.id, location_id := p.location_id }
  | ExplorerItem.Object o => o.file_paths.head?

/-- JavaScript truthiness of a `number | null` value: `null` and `0` are
falsy, every other number truthy (the `data.item.object_id` check). -/
def jsTruthyNum : Option Nat → Bool
  | none => false
  | some n => n != 0

/-- An effect issued by the double-activation handler, in issue order:
`navigate` carries the library uuid, the owning location id
(`getItemFilePath(data)?.location_id`) and the `path` search parameter;
`updateAccessTime` is the fire-and-forget mutation keyed by object id;
`openFilePath` is the fire-and-forget platform call keyed by library uuid and
file-path id. -/
inductive Effect
  | navigate (libraryUuid : String) (locationId : Option Nat) (searchPath : String)
  | updateAccessTime (objectId : Nat)
  | openFilePath (libraryUuid : String) (filePathId : Nat)
deriving DecidableEq, Repr

/-- The ambient values `onDoubleClick` closes over: `library.uuid`, whether
the platform supplies `openFilePath`, `explorerConfig.openOnDoubleClick`, and
`explorerStore.isRenaming`. -/
structure DoubleClickEnv where
  libraryUuid : String
  openFilePathAvailable : Bool
  openOnDoubleClick : Bool
  isRenaming : Bool
deriving DecidableEq, Repr

/-- The conditional access-time update inside the open branch:
`if (data.type === 'Path' && data.item.object_id) updateAccessTime.mutate(...)`.
Note the JavaScript truthiness check: `object_id === 0` issues nothing. -/
def accessTimeEffects : ExplorerItem → List Effect
  | ExplorerItem.Path p =>
      if jsTruthyNum p.object_id then
        [Effect.updateAccessTime (p.object_id.getD 0)]
      else []
  | ExplorerItem.Object _ => []

/-- The `else if` branch of `onDoubleClick`: requires the platform capability,
a resolved `filePath`, the `openOnDoubleClick` preference and no rename in
progress; then issues the (conditional) access-time update followed by the
open request. Otherwise nothing. -/
def openBranchEffects (env : DoubleClickEnv) (data : ExplorerItem) : List Effect :=
  match getItemFilePath data with
  | some fp =>
      if env.openFilePathAvailable && env.openOnDoubleClick && !env.isRenaming then
        accessTimeEffects data ++ [Effect.openFilePath env.libraryUuid fp.id]
      else []
  | none => []

/-- `ViewItem.onDoubleClick`: directory entries navigate to
`/{library.uuid}/location/{getItemFilePath(data)?.location_id}` with search
parameter `path = materialized_path + name + "/"`; everything else goes
through the gated open branch. The returned list is the ordered sequence of
issued effects. -/
def onDoubleClick (env : DoubleClickEnv) (data : ExplorerItem) : List Effect :=
  match data with
  | ExplorerItem.Path p =>
      if p.is_dir then
        [Effect.navigate env.libraryUuid
          ((getItemFilePath (ExplorerItem.Path p)).map FilePath.location_id)
          (p.materialized_path ++ p.name ++ "/")]
      else openBranchEffects env (ExplorerItem.Path p)
  | ExplorerItem.Object o => openBranchEffects env (ExplorerItem.Object o)

/-- The object reference of an item, as the spec's data model describes it:
a `Path` item carries an optional `object_id` link to a persisted object;
an `Object` item carries no such link field. -/
def referencedObjectId : ExplorerItem → Option Nat
  | ExplorerItem.Path p => p.object_id
  | ExplorerItem.Object _ => none

/-- Recognizer for access-time-update effects. -/
def isUpdateAccessTime : Effect → Bool
  | Effect.updateAccessTime _ => true
  | _ => false

/-- Recognizer for open-file effects. -/
def isOpenFilePath : Effect → Bool
  | Effect.openFilePath _ _ => true
  | _ => false

/-- Recognizer for navigation effects. -/
def isNavigate : Effect → Bool
  | Effect.navigate _ _ _ => true
  | _ => false

/-- `ExplorerViewSelection = number | number[]`: a selection value is either a
bare scalar id or an ordered list of ids. -/
inductive Selection
  | scalar (id : Nat)
  | list (ids : List Nat)
deriving DecidableEq, Repr

/-- `Array.isArray(selected)`: the selection prop is optional
(`selected?: T`), so an absent selection is `none` and is not list-shaped. -/
def isListShaped : Option Selection → Bool
  | some (Selection.list _) => true
  | _ => false

/-- The first selected id, as the quick-view handler computes it:
`Array.isArray(selected) ? selected[0] : selected`. An absent selection, or an
empty list (whose `[0]` is `undefined`), matches no item id. -/
def firstSelectedId : Option Selection → Option Nat
  | none => none
  | some (Selection.scalar i) => some i
  | some (Selection.list ids) => ids.head?

/-- `contextProps.items?.find(item => item.item.id === firstSelectedId)`:
`none` when the collection is null or the comparison id is `undefined`. -/
def findSelectedItem (items : Option (List ExplorerItem))
    (selected : Option Selection) : Option ExplorerItem :=
  match items, firstSelectedId selected with
  | some l, some sid => l.find? (fun it => itemId it == sid)
  | _, _ => none

/-- The `useKey('Space', ...)` handler: returns whether the key's default
effect was suppressed (`e.preventDefault()`, always) and the new value of the
process-wide quick-view slot (`getExplorerStore().quickViewObject`). Empty
slot: set to the found selected item if any, else unchanged; non-empty slot:
cleared to null regardless of the selection. -/
def spaceKeyHandler (slot : Option ExplorerItem) (items : Option (List ExplorerItem))
    (selected : Option Selection) : Bool × Option ExplorerItem :=
  (true,
    match slot with
    | none =>
        match findSelectedItem items selected with
        | some it => some it
        | none => none
    | some _ => none)

/-- `ExplorerLayoutMode`: the four layout modes accepted by the dispatcher. -/
inductive ExplorerLayoutMode
  | grid
  | media
  | columns
  | rows
deriving DecidableEq, Repr

/-- The default icons of the `emptyNoticeIcon` layout switch (phosphor
components), plus arbitrary caller-supplied icon components. -/
inductive IconKind
  | GridFour
  | MonitorPlay
  | Columns
  | Rows
  | other (n : Nat)
deriving DecidableEq, Repr

/-- The `icon` field of an empty-notice descriptor: either an `Icon`
component (run through `emptyNoticeIcon`) or an already-valid element
(rendered verbatim). -/
inductive IconProp
  | iconComponent (k : IconKind)
  | customElement (n : Nat)
deriving DecidableEq, Repr

/-- The `emptyNotice` prop:
`JSX.Element | { icon?, message? } | null | undefined`. Custom nodes are
opaque, tagged by a natural number. -/
inductive EmptyNoticeProp
  | notGiven
  | explicitNull
  | customNode (n : Nat)
  | descriptor (icon : Option IconProp) (message : Option String)
deriving DecidableEq, Repr

/-- Caller-supplied props of the dispatcher that the claims touch: layout
mode, nullable item collection, optional selection, empty-state descriptor,
optional context-menu node, and two representative pass-through knobs. -/
structure ExplorerViewProps where
  layout : ExplorerLayoutMode
  items : Option (List ExplorerItem)
  selected : Option Selection
  emptyNotice : EmptyNoticeProp
  contextMenu : Option Nat
  overscan : Option Nat
  top : Option Nat
deriving DecidableEq, Repr

/-- The built `ExplorerViewContext` value: the caller props spread together
with the two derived flags. -/
structure ExplorerViewContextState where
  items : Option (List ExplorerItem)
  selected : Option Selection
  contextMenu : Option Nat
  overscan : Option Nat
  top : Option Nat
  multiSelect : Bool
  selectable : Bool
deriving DecidableEq, Repr

/-- The `ViewContext.Provider` value:
`{ ...contextProps, multiSelect: Array.isArray(selected), selectable: !isContextMenuOpen }`. -/
def buildViewContext (props : ExplorerViewProps) (isContextMenuOpen : Bool) :
    ExplorerViewContextState :=
  { items := props.items
    selected := props.selected
    contextMenu := props.contextMenu
    overscan := props.overscan
    top := props.top
    multiSelect := isListShaped props.selected
    selectable := !isContextMenuOpen }

/-- The `onOpenChange={explorerView.setIsContextMenuOpen}` wiring of the
entry activation wrapper: opening or closing the menu overwrites the
dispatcher's context-menu-open flag with the reported value. -/
def viewItemOnOpenChange (isOpen : Bool) (_prev : Bool) : Bool := isOpen

/-- The renderer components mounted by layout mode. -/
inductive LayoutRenderer
  | GridView
  | ListView
  | MediaView
deriving DecidableEq, Repr

/-- Renderer selection: `grid → GridView`, `rows → ListView`,
`media → MediaView`; `columns` mounts no renderer. -/
def rendererFor : ExplorerLayoutMode → Option LayoutRenderer
  | ExplorerLayoutMode.grid => some LayoutRenderer.GridView
  | ExplorerLayoutMode.rows => some LayoutRenderer.ListView
  | ExplorerLayoutMode.media => some LayoutRenderer.MediaView
  | ExplorerLayoutMode.columns => none

/-- `emptyNoticeIcon(icon?)`: the explicit icon if given, else the layout's
default from the switch (grid → GridFour, media → MonitorPlay,
columns → Columns, rows → Rows). -/
def emptyNoticeIcon (icon : Option IconKind) (layout : ExplorerLayoutMode) : IconKind :=
  match icon with
  | some i => i
  | none =>
      match layout with
      | ExplorerLayoutMode.grid => IconKind.GridFour
      | ExplorerLayoutMode.media => IconKind.MonitorPlay
      | ExplorerLayoutMode.columns => IconKind.Columns
      | ExplorerLayoutMode.rows => IconKind.Rows

/-- The icon slot of a rendered empty notice: a component rendered through
`emptyNoticeIcon`, or a caller element rendered verbatim. -/
inductive NoticeIcon
  | rendered (k : IconKind)
  | verbatim (n : Nat)
deriving DecidableEq, Repr

/-- Icon resolution of the default empty-notice branch:
`'icon' in emptyNotice ? (isValidElement(icon) ? icon : emptyNoticeIcon(icon)) : emptyNoticeIcon()`. -/
def resolveNoticeIcon (icon : Option IconProp) (layout : ExplorerLayoutMode) : NoticeIcon :=
  match icon with
  | some (IconProp.customElement n) => NoticeIcon.verbatim n
  | some (IconProp.iconComponent k) => NoticeIcon.rendered (emptyNoticeIcon (some k) layout)
  | none => NoticeIcon.rendered (emptyNoticeIcon none layout)

/-- What the dispatcher's content region renders: the provider branch (with
the built context and the mounted renderer, if any), or one of the
empty-state outcomes. -/
inductive Rendered
  | content (ctx : ExplorerViewContextState) (renderer : Option LayoutRenderer)
  | emptyNothing
  | emptyCustom (node : Nat)
  | emptyNoticeView (icon : NoticeIcon) (message : String)
deriving DecidableEq, Repr

/-- The empty-state resolution (lines reached only when the provider branch
is not taken): explicit `null` renders nothing, a valid element renders
verbatim, otherwise icon above message with the literal default
"This list is empty". -/
def renderEmptyNotice (layout : ExplorerLayoutMode) (en : EmptyNoticeProp) : Rendered :=
  match en with
  | EmptyNoticeProp.explicitNull => Rendered.emptyNothing
  | EmptyNoticeProp.customNode n => Rendered.emptyCustom n
  | EmptyNoticeProp.descriptor icon msg =>
      Rendered.emptyNoticeView (resolveNoticeIcon icon layout)
        (msg.getD "This list is empty")
  | EmptyNoticeProp.notGiven =>
      Rendered.emptyNoticeView (resolveNoticeIcon none layout) "This list is empty"

/-- The dispatcher's render:
`items === null || (items && items.length > 0)` takes the provider branch,
otherwise the empty-state resolution. -/
def renderExplorerView (props : ExplorerViewProps) (isContextMenuOpen : Bool) : Rendered :=
  match props.items with
  | none =>
      Rendered.content (buildViewContext props isContextMenuOpen) (rendererFor props.layout)
  | some l =>
      if 0 < l.length then
        Rendered.content (buildViewContext props isContextMenuOpen) (rendererFor props.layout)
      else
        renderEmptyNotice props.layout props.emptyNotice

/-- Whether a render outcome is on the empty-state path (anything but the
provider branch). -/
def isEmptyStatePath : Rendered → Bool
  | Rendered.content _ _ => false
  | _ => true

/-- `useExplorerViewContext`: reading the context value; `null` (no provider
binding) throws `Error('ViewContext.Provider not found!')`, modelled as
`Except.error` with the thrown message; a bound value is returned as is. -/
def useExplorerViewContext (ctx : Option ExplorerViewContextState) :
    Except String ExplorerViewContextState :=
  match ctx with
  | none => Except.error "ViewContext.Provider not found!"
  | some c => Except.ok c

/-- Helper: a directory `Path` entry always produces exactly the single
navigation effect, whatever the environment. -/
theorem onDoubleClick_dir (env : DoubleClickEnv) (p : PathItem) (hdir : p.is_dir = true) :
    onDoubleClick env (ExplorerItem.Path p) =
      [Effect.navigate env.libraryUuid (some p.location_id)
        (p.materialized_path ++ p.name ++ "/")] := by
  simp [onDoubleClick, hdir, getItemFilePath]

/-- Helper: the open branch issues nothing when any gating condition fails. -/
theorem openBranchEffects_noop (env : DoubleClickEnv) (data : ExplorerItem)
    (hfail : env.openFilePathAvailable = false ∨ getItemFilePath data = none ∨
      env.openOnDoubleClick = false ∨ env.isRenaming = true) :
    openBranchEffects env data = [] := by
  rcases hg : getItemFilePath data with _ | fp
  · simp [openBranchEffects, hg]
  · rcases hfail with h | h | h | h
    · simp [openBranchEffects, hg, h]
    · rw [hg] at h; cases h
    · simp [openBranchEffects, hg, h]
    · simp [openBranchEffects, hg, h]

def c1Env : DoubleClickEnv :=
  { libraryUuid := "lib-1", openFilePathAvailable := true,
    openOnDoubleClick := true, isRenaming := false }

def c1Item : ExplorerItem :=
  ExplorerItem.Path
    { id := 5, is_dir := false, materialized_path := "/a/", name := "f.txt",
      location_id := 3, object_id := some 0 }

/-- C1 counterexample: a non-directory item with all four open-gating
conditions holding and a present object reference (`object_id = 0`) gets its
open request but no access-time update: the source tests
`data.item.object_id` for JavaScript truthiness, under which the number `0`
is falsy, rather than for non-nullness. -/
theorem c1_counterexample :
    isDirItem c1Item = false ∧
    c1Env.openFilePathAvailable = true ∧
    (getItemFilePath c1Item).isSome = true ∧
    c1Env.openOnDoubleClick = true ∧
    c1Env.isRenaming = false ∧
    (referencedObjectId c1Item).isSome = true ∧
    (onDoubleClick c1Env c1Item).countP isUpdateAccessTime = 0 ∧
    onDoubleClick c1Env c1Item = [Effect.openFilePath "lib-1" 5] := by
  refine ⟨rfl, rfl, rfl, rfl, rfl, rfl, rfl, rfl⟩

/-- C1 (amended): for a double-activation of a non-directory `Path` item with
all four open-gating conditions holding, if the item references a persisted
object through a nonzero `object_id` then exactly one fire-and-forget
access-time update for that object's id is issued strictly before the single
open-file request addressing the containing library and the resolved
file-path id. -/
theorem c1_access_time_before_open (env : DoubleClickEnv) (p : PathItem) (oid : Nat)
    (hdir : p.is_dir = false)
    (hcap : env.openFilePathAvailable = true)
    (hpref : env.openOnDoubleClick = true)
    (hren : env.isRenaming = false)
    (hobj : p.object_id = some oid) (hz : oid ≠ 0) :
    onDoubleClick env (ExplorerItem.Path p) =
      [Effect.updateAccessTime oid, Effect.openFilePath env.libraryUuid p.id] := by
  simp [onDoubleClick, hdir, openBranchEffects, getItemFilePath, hcap, hpref, hren,
    accessTimeEffects, jsTruthyNum, hobj, hz]

def c1wEnv : DoubleClickEnv :=
  { libraryUuid := "lib-2", openFilePathAvailable := true,
    openOnDoubleClick := true, isRenaming := false }

def c1wItem : PathItem :=
  { id := 8, is_dir := false, materialized_path := "/b/", name := "g.txt",
    location_id := 4, object_id := some 7 }

/-- C1 witness: concrete run of the amended theorem. -/
theorem c1_access_time_before_open_witness :
    onDoubleClick c1wEnv (ExplorerItem.Path c1wItem) =
      [Effect.updateAccessTime 7, Effect.openFilePath "lib-2" 8] :=
  c1_access_time_before_open c1wEnv c1wItem 7 rfl rfl rfl rfl rfl (by decide)

/-- C2: double-activating any non-directory item with at least one of the
four open-gating conditions false (platform capability absent, no resolvable
file-path record, open-on-double-activation preference disabled, or a rename
in progress) issues no effect at all — no navigation, no access-time update,
no open request — and, `onDoubleClick` being a total function into effect
lists, raises no error. -/
theorem c2_gated_noop (env : DoubleClickEnv) (data : ExplorerItem)
    (hnd : isDirItem data = false)
    (hfail : env.openFilePathAvailable = false ∨ getItemFilePath data = none ∨
      env.openOnDoubleClick = false ∨ env.isRenaming = true) :
    onDoubleClick env data = [] := by
  cases data with
  | Path p =>
      simp only [isDirItem] at hnd
      simp only [onDoubleClick, hnd, Bool.false_eq_true, if_false]
      exact openBranchEffects_noop env (ExplorerItem.Path p) hfail
  | Object o =>
      exact openBranchEffects_noop env (ExplorerItem.Object o) hfail

def c2wEnv : DoubleClickEnv :=
  { libraryUuid := "lib-4", openFilePathAvailable := true,
    openOnDoubleClick := false, isRenaming := false }

def c2wItem : ExplorerItem :=
  ExplorerItem.Path
    { id := 9, is_dir := false, materialized_path := "/c/", name := "h.txt",
      location_id := 2, object_id := some 3 }

/-- C2 witness: with the open preference disabled, a file double-activation
issues nothing. -/
theorem c2_gated_noop_witness : onDoubleClick c2wEnv c2wItem = [] :=
  c2_gated_noop c2wEnv c2wItem rfl (Or.inr (Or.inr (Or.inl rfl)))

/-- C3: double-activating a directory item issues exactly one navigation
request, addressed to the directory's owning location, whose path parameter
is the item's materialized path, then its name, then a trailing slash. -/
theorem c3_directory_navigation (env : DoubleClickEnv) (p : PathItem)
    (hdir : p.is_dir = true) :
    onDoubleClick env (ExplorerItem.Path p) =
      [Effect.navigate env.libraryUuid (some p.location_id)
        (p.materialized_path ++ p.name ++ "/")] :=
  onDoubleClick_dir env p hdir

def c3Env : DoubleClickEnv :=
  { libraryUuid := "lib-3", openFilePathAvailable := true,
    openOnDoubleClick := true, isRenaming := false }

def c3Item : PathItem :=
  { id := 11, is_dir := true, materialized_path := "/docs/", name := "reports",
    location_id := 7, object_id := none }

/-- C3 witness: materialized path `/docs/`, name `reports`, location `7`
navigates to location `7` with path `/docs/reports/`. -/
theorem c3_directory_navigation_witness :
    onDoubleClick c3Env (ExplorerItem.Path c3Item) =
      [Effect.navigate "lib-3" (some 7) "/docs/reports/"] := by
  rw [c3_directory_navigation c3Env c3Item rfl]
  decide

/-- C10: the directory branch checks none of the four open gates: a directory
double-activation issues its single navigation (and neither an access-time
update nor an open request) under every environment, and any two environments
sharing a library uuid produce identical effects. -/
theorem c10_directory_ignores_gates (env : DoubleClickEnv) (p : PathItem)
    (hdir : p.is_dir = true) :
    (onDoubleClick env (ExplorerItem.Path p)).countP isNavigate = 1 ∧
    (onDoubleClick env (ExplorerItem.Path p)).countP isUpdateAccessTime = 0 ∧
    (onDoubleClick env (ExplorerItem.Path p)).countP isOpenFilePath = 0 ∧
    ∀ env2 : DoubleClickEnv, env2.libraryUuid = env.libraryUuid →
      onDoubleClick env2 (ExplorerItem.Path p) = onDoubleClick env (ExplorerItem.Path p) := by
  refine ⟨?_, ?_, ?_, ?_⟩
  · rw [onDoubleClick_dir env p hdir]; rfl
  · rw [onDoubleClick_dir env p hdir]; rfl
  · rw [onDoubleClick_dir env p hdir]; rfl
  · intro env2 h
    rw [onDoubleClick_dir env2 p hdir, onDoubleClick_dir env p hdir, h]

def c10Env : DoubleClickEnv :=
  { libraryUuid := "lib-5", openFilePathAvailable := false,
    openOnDoubleClick := false, isRenaming := true }

def c10Item : PathItem :=
  { id := 12, is_dir := true, materialized_path := "/x/", name := "y",
    location_id := 3, object_id := none }

/-- C10 witness: navigation still fires with the capability absent, the open
preference disabled and a rename in progress. -/
theorem c10_directory_ignores_gates_witness :
    (onDoubleClick c10Env (ExplorerItem.Path c10Item)).countP isNavigate = 1 :=
  (c10_directory_ignores_gates c10Env c10Item rfl).1

/-- Helper: `isListShaped` characterizes exactly the list-shaped selections. -/
theorem isListShaped_iff (s : Option Selection) :
    isListShaped s = true ↔ ∃ ids, s = some (Selection.list ids) := by
  cases s with
  | none => simp [isListShaped]
  | some v =>
      cases v with
      | scalar i => simp [isListShaped]
      | list ids => simp [isListShaped]

/-- C4: the quick-view key handler always suppresses the key's default
effect; with the slot occupied it clears the slot regardless of the current
selection; with the slot empty it stores the first item of the collection
whose id equals the first selected id; with the slot empty and no matching
item the slot is unchanged and nothing is raised. -/
theorem c4_quick_view_toggle (slot : Option ExplorerItem)
    (items : Option (List ExplorerItem)) (selected : Option Selection) :
    (spaceKeyHandler slot items selected).1 = true ∧
    (∀ x, slot = some x → (spaceKeyHandler slot items selected).2 = none) ∧
    (∀ l sid it, slot = none → items = some l → firstSelectedId selected = some sid →
      l.find? (fun i => itemId i == sid) = some it →
      (spaceKeyHandler slot items selected).2 = some it) ∧
    (slot = none → findSelectedItem items selected = none →
      (spaceKeyHandler slot items selected).2 = slot) := by
  refine ⟨rfl, ?_, ?_, ?_⟩
  · rintro x rfl; rfl
  · rintro l sid it rfl rfl hsid hfind
    simp [spaceKeyHandler, findSelectedItem, hsid, hfind]
  · rintro rfl hnone
    simp [spaceKeyHandler, hnone]

def c4ItemA : ExplorerItem :=
  ExplorerItem.Path
    { id := 1, is_dir := false, materialized_path := "/a/", name := "a.txt",
      location_id := 1, object_id := none }

def c4ItemB : ExplorerItem :=
  ExplorerItem.Path
    { id := 2, is_dir := false, materialized_path := "/a/", name := "b.txt",
      location_id := 1, object_id := none }

/-- C4 witness: empty slot, selection `[1, 2]`: the slot is set to the item
with id `1`, the first element of the selection. -/
theorem c4_quick_view_toggle_witness :
    (spaceKeyHandler none (some [c4ItemA, c4ItemB]) (some (Selection.list [1, 2]))).2 =
      some c4ItemA :=
  (c4_quick_view_toggle none (some [c4ItemA, c4ItemB])
    (some (Selection.list [1, 2]))).2.2.1 [c4ItemA, c4ItemB] 1 c4ItemA rfl rfl rfl (by decide)

/-- C5: in every built view-context value, `selectable` is the negation of the
dispatcher's context-menu-open flag, and after any entry reports an
open-change through the wrapper's wiring, the rebuilt context's `selectable`
is the negation of the reported state. -/
theorem c5_selectable_negation (props : ExplorerViewProps) (flag : Bool) :
    ((buildViewContext props flag).selectable = !flag) ∧
    (∀ b, (buildViewContext props (viewItemOnOpenChange b flag)).selectable = !b) :=
  ⟨rfl, fun _ => rfl⟩

/-- C6: the derived `multiSelect` flag is true exactly for list-shaped
selections — including the empty list — and false for a bare scalar id or an
absent selection. -/
theorem c6_multi_select_shape (props : ExplorerViewProps) (flag : Bool) :
    ((buildViewContext props flag).multiSelect = true ↔
      ∃ ids, props.selected = some (Selection.list ids)) ∧
    (props.selected = none → (buildViewContext props flag).multiSelect = false) ∧
    (∀ i, props.selected = some (Selection.scalar i) →
      (buildViewContext props flag).multiSelect = false) ∧
    (∀ ids, props.selected = some (Selection.list ids) →
      (buildViewContext props flag).multiSelect = true) := by
  refine ⟨?_, ?_, ?_, ?_⟩
  · simpa [buildViewContext] using isListShaped_iff props.selected
  · intro h; simp [buildViewContext, h, isListShaped]
  · intro i h; simp [buildViewContext, h, isListShaped]
  · intro ids h; simp [buildViewContext, h, isListShaped]

def c6Props : ExplorerViewProps :=
  { layout := ExplorerLayoutMode.grid, items := some [c4ItemA],
    selected := some (Selection.list []), emptyNotice := EmptyNoticeProp.notGiven,
    contextMenu := none, overscan := none, top := none }

/-- C6 witness: the empty-list selection is list-shaped, so `multiSelect` is
true. -/
theorem c6_multi_select_shape_witness :
    (buildViewContext c6Props false).multiSelect = true :=
  (c6_multi_select_shape c6Props false).2.2.2 [] rfl

/-- C7: the empty-state path is reached exactly when the item collection is
non-null and empty; a null collection takes the provider branch and mounts
the layout's renderer. -/
theorem c7_empty_state_gate (props : ExplorerViewProps) (flag : Bool) :
    (isEmptyStatePath (renderExplorerView props flag) = true ↔ props.items = some []) ∧
    (props.items = none →
      renderExplorerView props flag =
        Rendered.content (buildViewContext props flag) (rendererFor props.layout)) := by
  constructor
  · rcases hi : props.items with _ | l
    · simp [renderExplorerView, hi, isEmptyStatePath]
    · cases l with
      | nil =>
          rcases he : props.emptyNotice <;>
            simp [renderExplorerView, hi, isEmptyStatePath, renderEmptyNotice, he]
      | cons a as => simp [renderExplorerView, hi, isEmptyStatePath]
  · intro h; simp [renderExplorerView, h]

def c7Props : ExplorerViewProps :=
  { layout := ExplorerLayoutMode.rows, items := none, selected := none,
    emptyNotice := EmptyNoticeProp.notGiven, contextMenu := none,
    overscan := none, top := none }

/-- C7 witness: with a null collection the rows renderer still mounts and the
empty-state path is not taken. -/
theorem c7_empty_state_gate_witness :
    renderExplorerView c7Props false =
      Rendered.content (buildViewContext c7Props false) (rendererFor c7Props.layout) :=
  (c7_empty_state_gate c7Props false).2 rfl

/-- C8: with a non-null empty collection, an explicit `null` descriptor
renders nothing, a custom node renders verbatim, and the descriptor/absent
cases render a resolved icon above a message defaulting to the literal
"This list is empty"; an explicit icon component override is used as is, an
element override renders verbatim, and the four layouts have pairwise
distinct default icons. -/
theorem c8_empty_notice_resolution (props : ExplorerViewProps) (flag : Bool)
    (h : props.items = some []) :
    (props.emptyNotice = EmptyNoticeProp.explicitNull →
      renderExplorerView props flag = Rendered.emptyNothing) ∧
    (∀ n, props.emptyNotice = EmptyNoticeProp.customNode n →
      renderExplorerView props flag = Rendered.emptyCustom n) ∧
    (∀ icon msg, props.emptyNotice = EmptyNoticeProp.descriptor icon msg →
      renderExplorerView props flag =
        Rendered.emptyNoticeView (resolveNoticeIcon icon props.layout)
          (msg.getD "This list is empty")) ∧
    (props.emptyNotice = EmptyNoticeProp.notGiven →
      renderExplorerView props flag =
        Rendered.emptyNoticeView (NoticeIcon.rendered (emptyNoticeIcon none props.layout))
          "This list is empty") ∧
    (∀ k layout, resolveNoticeIcon (some (IconProp.iconComponent k)) layout =
      NoticeIcon.rendered k) ∧
    (∀ n layout, resolveNoticeIcon (some (IconProp.customElement n)) layout =
      NoticeIcon.verbatim n) ∧
    List.Pairwise (fun a b => a ≠ b)
      [emptyNoticeIcon none ExplorerLayoutMode.grid,
       emptyNoticeIcon none ExplorerLayoutMode.media,
       emptyNoticeIcon none ExplorerLayoutMode.columns,
       emptyNoticeIcon none ExplorerLayoutMode.rows] := by
  refine ⟨?_, ?_, ?_, ?_, ?_, ?_, ?_⟩
  · intro he; simp [renderExplorerView, h, he, renderEmptyNotice]
  · intro n he; simp [renderExplorerView, h, he, renderEmptyNotice]
  · intro icon msg he; simp [renderExplorerView, h, he, renderEmptyNotice]
  · intro he
    simp [renderExplorerView, h, he, renderEmptyNotice, resolveNoticeIcon]
  · intro k layout; rfl
  · intro n layout; rfl
  · decide

def c8Props : ExplorerViewProps :=
  { layout := ExplorerLayoutMode.grid, items := some [], selected := none,
    emptyNotice := EmptyNoticeProp.explicitNull, contextMenu := none,
    overscan := none, top := none }

/-- C8 witness: `items = []` with an explicit `null` empty-state descriptor
renders nothing. -/
theorem c8_empty_notice_resolution_witness :
    renderExplorerView c8Props false = Rendered.emptyNothing :=
  (c8_empty_notice_resolution c8Props false rfl).1 rfl

/-- C9: reading the shared view context with no provider binding always
yields the thrown configuration error — never a silently defaulted value —
and a bound context is returned as is: success happens exactly on bound
reads. -/
theorem c9_unbound_context_fails (ctx : Option ExplorerViewContextState) :
    useExplorerViewContext none =
      Except.error "ViewContext.Provider not found!" ∧
    (∀ c, useExplorerViewContext (some c) = Except.ok c) ∧
    (useExplorerViewContext ctx).isOk = ctx.isSome := by
  refine ⟨rfl, fun c => rfl, ?_⟩
  cases ctx <;> rfl
